import Mathlib

/-!
Shallow embedding of `src/server.js` (an Express + WebSocket prompt store
backed by a SQLite table) together with proofs about the claims of the
specification.  Machine state is modelled explicitly: the SQLite table is a
list of rows in rowid order plus the AUTOINCREMENT counter, each HTTP
handler is a pure function from store state (and an explicit clock value
standing for CURRENT_TIMESTAMP) to a result record carrying the HTTP
status, the new store state and the list of broadcast events, and the
WebSocket heartbeat is a small transition system.
-/

namespace Server

/-- Row of the `prompts` table: `id INTEGER PRIMARY KEY AUTOINCREMENT`,
`title TEXT NOT NULL`, `content TEXT NOT NULL`,
`category TEXT DEFAULT 'General'`, `created_at` / `updated_at`
`DATETIME DEFAULT CURRENT_TIMESTAMP`.  Timestamps are modelled as `Nat`. -/
structure Prompt where
  id : Nat
  title : String
  content : String
  category : String
  created_at : Nat
  updated_at : Nat
deriving DecidableEq

/-- The `prompts` table: rows in rowid (insertion) order, plus the
AUTOINCREMENT counter for the next fresh id. -/
structure Store where
  rows : List Prompt
  nextId : Nat
deriving DecidableEq

/-- AUTOINCREMENT invariant: every stored id is below the counter. -/
def Store.wf (s : Store) : Prop := ∀ p ∈ s.rows, p.id < s.nextId

instance (s : Store) : Decidable s.wf := by
  unfold Store.wf; infer_instance

/-- Insertion into a list sorted by `updated_at` descending. -/
def insertDesc (p : Prompt) : List Prompt → List Prompt
  | [] => [p]
  | q :: qs => if q.updated_at ≤ p.updated_at then p :: q :: qs else q :: insertDesc p qs

/-- Sort by `updated_at` descending (most recently changed first). -/
def sortByUpdatedDesc : List Prompt → List Prompt
  | [] => []
  | p :: ps => insertDesc p (sortByUpdatedDesc ps)

/-- `SELECT * FROM prompts ORDER BY updated_at DESC` — the query behind
`GET /api/prompts`, i.e. the spec's `Store.list()`. -/
def Store.list (s : Store) : List Prompt := sortByUpdatedDesc s.rows

/-- `SELECT * FROM prompts` with no ORDER BY — the query used when a new
WebSocket connection arrives (rowid order). -/
def snapshotQuery (s : Store) : List Prompt := s.rows

/-- Payload (`data` field) of a server→client message. -/
inductive EventData where
  | records (rs : List Prompt)
  | record (p : Prompt)
  | deletedId (id : Nat)
  | count (n : Nat)
deriving DecidableEq

/-- A `{type, data}` envelope passed to `broadcast` or `ws.send`. -/
structure Event where
  type : String
  data : EventData
deriving DecidableEq

/-- A JSON body field that may be absent (`undefined`) or `null` (both
modelled as `none`) or a string. -/
def JsField := Option String
deriving instance DecidableEq for JsField

/-- JavaScript falsiness of an optional string field: `!x` is true exactly
when the field is absent, `null`, or the empty string. -/
def strFalsy : Option String → Bool
  | none => true
  | some s => s = ""

/-- The expression `category || 'General'` of the insert handlers: an
absent, null or empty category falls back to the sentinel. -/
def catOrDefault : Option String → String
  | none => "General"
  | some c => if c = "" then "General" else c

/-- Request body of `POST /api/prompts`: `{title, content, category?}`,
each field possibly absent. -/
structure CreateReq where
  title : Option String
  content : Option String
  category : Option String
deriving DecidableEq

/-- Outcome of `POST /api/prompts`: HTTP status, resulting store, events
broadcast, and the `id` field of the success body. -/
structure PostResult where
  status : Nat
  store : Store
  events : List Event
  newId : Option Nat
deriving DecidableEq

/-- Handler of `POST /api/prompts` (src/server.js lines 82–104):
reject with 400 when `!title || !content`; otherwise
`INSERT INTO prompts (title, content, category) VALUES (?, ?, ?)` with
`category || 'General'`, broadcast `prompt_created` with the fresh row, and
answer 201 with the `lastInsertRowid`. -/
def createPrompt (s : Store) (now : Nat) (req : CreateReq) : PostResult :=
  if strFalsy req.title || strFalsy req.content then
    { status := 400, store := s, events := [], newId := none }
  else
    let p : Prompt :=
      { id := s.nextId, title := req.title.getD "", content := req.content.getD "",
        category := catOrDefault req.category, created_at := now, updated_at := now }
    let s' : Store := { rows := s.rows ++ [p], nextId := s.nextId + 1 }
    { status := 201, store := s',
      events := [⟨"prompt_created", .record p⟩], newId := some p.id }

/-- One row of the `POST /api/prompts/import` body. -/
structure RawRow where
  title : Option String
  content : Option String
  category : Option String
deriving DecidableEq

/-- One `insert.run(prompt.title, prompt.content, prompt.category || 'General')`
inside the transaction: binding an absent or null title/content aborts the
statement (better-sqlite3 refuses `undefined`; `NOT NULL` refuses `NULL`),
modelled as `none`; any bound string — including the empty string — is
inserted. -/
def bulkRowInsert (s : Store) (now : Nat) (r : RawRow) : Option Store :=
  match r.title, r.content with
  | some t, some c =>
      some { rows := s.rows ++
               [{ id := s.nextId, title := t, content := c,
                  category := catOrDefault r.category,
                  created_at := now, updated_at := now }],
             nextId := s.nextId + 1 }
  | _, _ => none

/-- The `db.transaction` loop `insertMany`: run the inserts in order; a
throwing insert rolls the whole batch back (`none`). -/
def insertMany (s : Store) (now : Nat) : List RawRow → Option Store
  | [] => some s
  | r :: rs =>
      match bulkRowInsert s now r with
      | none => none
      | some s' => insertMany s' now rs

/-- Outcome of `POST /api/prompts/import`. -/
structure ImportResult where
  status : Nat
  store : Store
  events : List Event
  count : Option Nat
deriving DecidableEq

/-- Handler of `POST /api/prompts/import` (src/server.js lines 107–135):
400 when the body is not an array (`none`); otherwise run `insertMany`
transactionally — on a throw the catch answers 500 with nothing persisted
and nothing broadcast; on success broadcast `prompts_imported` with
`count = newPrompts.length` and answer 200. -/
def importPrompts (s : Store) (now : Nat) (body : Option (List RawRow)) : ImportResult :=
  match body with
  | none => { status := 400, store := s, events := [], count := none }
  | some rows =>
      match insertMany s now rows with
      | none => { status := 500, store := s, events := [], count := none }
      | some s' =>
          { status := 200, store := s',
            events := [⟨"prompts_imported", .count rows.length⟩],
            count := some rows.length }

/-- Outcome of `PUT /api/prompts/:id` and `DELETE /api/prompts/:id`. -/
structure MutResult where
  status : Nat
  store : Store
  events : List Event
deriving DecidableEq

/-- Handler of `PUT /api/prompts/:id` (src/server.js lines 138–162):
`UPDATE prompts SET title = ?, content = ?, category = ? WHERE id = ?`;
the `update_prompts_timestamp` trigger then refreshes `updated_at` to
CURRENT_TIMESTAMP; `changes === 0` answers 404; otherwise the updated row
is re-read and broadcast as `prompt_updated`. -/
def updatePrompt (s : Store) (now : Nat) (id : Nat) (title content category : String) :
    MutResult :=
  match s.rows.find? (fun p => p.id == id) with
  | none => { status := 404, store := s, events := [] }
  | some old =>
      let u : Prompt :=
        { old with title := title, content := content, category := category,
                   updated_at := now }
      let s' : Store :=
        { s with rows := s.rows.map (fun p => if p.id == id then u else p) }
      { status := 200, store := s', events := [⟨"prompt_updated", .record u⟩] }

/-- Handler of `DELETE /api/prompts/:id` (src/server.js lines 165–178):
`DELETE FROM prompts WHERE id = ?`, then unconditionally broadcast
`prompt_deleted` with the id and answer `{success: true}`. -/
def deletePrompt (s : Store) (id : Nat) : MutResult :=
  { status := 200,
    store := { s with rows := s.rows.filter (fun p => p.id != id) },
    events := [⟨"prompt_deleted", .deletedId id⟩] }

/-! JSON serialization, mirroring `JSON.stringify` on the objects the
server actually broadcasts (plain strings and numbers, no nesting beyond
the envelope). -/

/-- Render a JSON string literal. -/
def jsonStr (s : String) : String := "\"" ++ s ++ "\""

/-- Render one row the way `JSON.stringify` renders the object returned by
`SELECT *`. -/
def promptJson (p : Prompt) : String :=
  "\x7b\"id\":" ++ toString p.id ++
  ",\"title\":" ++ jsonStr p.title ++
  ",\"content\":" ++ jsonStr p.content ++
  ",\"category\":" ++ jsonStr p.category ++
  ",\"created_at\":" ++ toString p.created_at ++
  ",\"updated_at\":" ++ toString p.updated_at ++ "\x7d"

/-- Render the `data` field of an envelope. -/
def eventDataJson : EventData → String
  | .records rs => "[" ++ String.intercalate "," (rs.map promptJson) ++ "]"
  | .record p => promptJson p
  | .deletedId i => "\x7b\"id\":" ++ toString i ++ "\x7d"
  | .count n => "\x7b\"count\":" ++ toString n ++ "\x7d"

/-- `JSON.stringify(message)` for a `{type, data}` envelope. -/
def serializeEvent (e : Event) : String :=
  "\x7b\"type\":" ++ jsonStr e.type ++ ",\"data\":" ++ eventDataJson e.data ++ "\x7d"

/-- `WebSocket.OPEN`. -/
def OPEN : Nat := 1

/-- One member of `wss.clients`: an identifying handle and its
`readyState`. -/
structure Client where
  id : Nat
  readyState : Nat
deriving DecidableEq

/-- `broadcast(message)` (src/server.js lines 189–196): stringify the
message once, then for each client of the current `wss.clients` snapshot
send that string when `client.readyState === WebSocket.OPEN`, skipping the
others.  The result lists the (client, payload) deliveries performed. -/
def broadcast (cs : List Client) (message : Event) : List (Nat × String) :=
  let messageString := serializeEvent message
  (cs.filter (fun c => c.readyState == OPEN)).map (fun c => (c.id, messageString))

/-- `wss.on('connection')` (src/server.js lines 201–210): add the socket to
the client set, then `ws.send` — to that socket only, not `broadcast` — one
`initial_data` envelope built from `SELECT * FROM prompts`.  The result is
the new client set and the list of (target, event) sends performed. -/
def handleConnection (clients : List Nat) (wsId : Nat) (s : Store) :
    List Nat × List (Nat × Event) :=
  (clients ++ [wsId], [(wsId, ⟨"initial_data", .records (snapshotQuery s)⟩)])

/-! Heartbeat liveness machine.  A connection carries the mutable
`ws.isAlive` flag; `terminated` records that `ws.terminate()` ran, which
also fires `close` and removes the socket from the client set. -/

/-- Liveness state of one WebSocket connection. -/
structure Conn where
  isAlive : Bool
  terminated : Bool
deriving DecidableEq

/-- State of a connection right after `wss.on('connection')` ran:
`ws.isAlive = true`, registered. -/
def connInit : Conn := { isAlive := true, terminated := false }

/-- The events that drive one connection's liveness: a `pong` frame
arriving, or one tick of the 30000 ms `heartbeatInterval`. -/
inductive HBEvent where
  | pong
  | beat
deriving DecidableEq

/-- One step (src/server.js lines 218–235): `ws.on('pong')` sets
`isAlive = true`; a heartbeat tick terminates the connection when
`!ws.isAlive`, and otherwise clears the flag and pings.  A terminated
socket receives no further events. -/
def hbStep (c : Conn) : HBEvent → Conn
  | .pong => if c.terminated then c else { c with isAlive := true }
  | .beat =>
      if c.terminated then c
      else if c.isAlive then { c with isAlive := false }
      else { c with terminated := true }

/-- Run the liveness machine over a trace of events. -/
def runHB (c : Conn) : List HBEvent → Conn
  | [] => c
  | e :: es => runHB (hbStep c e) es

/-- Run the machine over `n` heartbeat ticks with no pong ever arriving
(a connection that never answers any probe). -/
def runSilent (c : Conn) : Nat → Conn
  | 0 => c
  | n + 1 => hbStep (runSilent c n) .beat

/-- A trace in which a pong arrives after each ping and before the next
heartbeat tick: the flag `b` says whether a pong has arrived since the
last tick (initially true — the flag starts true at connection time). -/
def responsiveFrom (b : Bool) : List HBEvent → Bool
  | [] => true
  | .pong :: es => responsiveFrom true es
  | .beat :: es => b && responsiveFrom false es

/-- A fully responsive trace, starting at connection time. -/
def responsive (es : List HBEvent) : Bool := responsiveFrom true es

/-- Wall-clock time of the `n`-th heartbeat tick a connection sees, the
first such tick occurring at time `b1` and the `heartbeatInterval` period
being `P`. -/
def beatTime (b1 P n : Nat) : Nat := b1 + (n - 1) * P

/-! Supporting lemmas. -/

/-- Inserting into the sorted list is a permutation of consing. -/
theorem insertDesc_perm (p : Prompt) (l : List Prompt) :
    (insertDesc p l).Perm (p :: l) := by
  induction l with
  | nil => simp [insertDesc]
  | cons q qs ih =>
    simp only [insertDesc]
    split
    · exact List.Perm.refl _
    · exact (ih.cons q).trans (List.Perm.swap p q qs)

/-- `ORDER BY updated_at DESC` permutes the table rows. -/
theorem sortByUpdatedDesc_perm (l : List Prompt) :
    (sortByUpdatedDesc l).Perm l := by
  induction l with
  | nil => exact List.Perm.refl _
  | cons p ps ih => exact (insertDesc_perm p _).trans (ih.cons p)

/-- `list()` has exactly as many rows as the table. -/
theorem list_length (s : Store) : (Store.list s).length = s.rows.length :=
  (sortByUpdatedDesc_perm s.rows).length_eq

/-- The transaction rolls back whole: a single row with an unbindable
(absent or null) title or content makes `insertMany` fail. -/
theorem insertMany_rollback (now : Nat) :
    ∀ (rows : List RawRow) (s : Store),
      (∃ r ∈ rows, r.title = none ∨ r.content = none) →
      insertMany s now rows = none := by
  intro rows
  induction rows with
  | nil => intro s h; simp at h
  | cons r rs ih =>
    intro s h
    rcases h with ⟨x, hx, hfail⟩
    rcases List.mem_cons.mp hx with he | hm
    · subst he
      have hbr : bulkRowInsert s now x = none := by
        rcases hfail with h1 | h1 <;>
          cases ht : x.title <;> cases hc : x.content <;>
          simp_all [bulkRowInsert]
      simp [insertMany, hbr]
    · simp only [insertMany]
      cases hbr : bulkRowInsert s now r with
      | none => rfl
      | some s1 => exact ih s1 ⟨x, hm, hfail⟩

/-- A batch whose rows all carry bindable title and content commits:
`insertMany` succeeds and appends exactly one row per input row. -/
theorem insertMany_ok (now : Nat) :
    ∀ (rows : List RawRow) (s : Store),
      (∀ r ∈ rows, r.title ≠ none ∧ r.content ≠ none) →
      ∃ s', insertMany s now rows = some s' ∧
        s'.rows.length = s.rows.length + rows.length := by
  intro rows
  induction rows with
  | nil => intro s _; exact ⟨s, rfl, by simp⟩
  | cons r rs ih =>
    intro s h
    obtain ⟨ht, hc⟩ := h r (List.mem_cons_self r rs)
    obtain ⟨t, htt⟩ := Option.ne_none_iff_exists'.mp ht
    obtain ⟨c, hcc⟩ := Option.ne_none_iff_exists'.mp hc
    obtain ⟨s', hs', hlen⟩ :=
      ih { rows := s.rows ++
             [{ id := s.nextId, title := t, content := c,
                category := catOrDefault r.category,
                created_at := now, updated_at := now }],
           nextId := s.nextId + 1 }
        (fun x hx => h x (List.mem_cons_of_mem r hx))
    refine ⟨s', ?_, ?_⟩
    · simp [insertMany, bulkRowInsert, htt, hcc, hs']
    · rw [hlen]; simp [List.length_append]; omega

/-! Claim theorems. -/

/-- Claim C1: the spec demands per-row validation with an all-or-nothing
bulk insert — a batch containing a row with an EMPTY title must be wholly
rejected, nothing persisted and no `prompts_imported` broadcast.  The bulk
insert handler performs no emptiness check (only the NOT NULL constraint
guards the insert), so on the batch `[{title: "", content: "hello"}]` the
code answers 200, persists the row with the empty title, and broadcasts
`prompts_imported` with count 1 — contradicting the claim and §8 of the
spec; the sibling `POST /api/prompts` handler does reject empty titles, so
the missing check is a slip in the code. -/
theorem C1_empty_title_batch_accepted :
    (importPrompts ⟨[], 1⟩ 7 (some [⟨some "", some "hello", none⟩])).status = 200 ∧
    (importPrompts ⟨[], 1⟩ 7 (some [⟨some "", some "hello", none⟩])).store.rows =
      [⟨1, "", "hello", "General", 7, 7⟩] ∧
    (importPrompts ⟨[], 1⟩ 7 (some [⟨some "", some "hello", none⟩])).events =
      [⟨"prompts_imported", .count 1⟩] :=
  ⟨rfl, rfl, rfl⟩

/-- Claim C2, counterexample: deleting an id that is not in the store is
claimed to publish no event, but the handler broadcasts `prompt_deleted`
unconditionally — here on an empty store. -/
theorem C2_noop_delete_publishes :
    (deletePrompt ⟨[], 1⟩ 1).events ≠ [] := by
  decide

/-- Claim C2 as amended: for every id with no matching record,
`DELETE /api/prompts/:id` answers 200 success, leaves the store unchanged,
and publishes exactly one `prompt_deleted` event carrying that id (the
handler always broadcasts, even for a no-op delete). -/
theorem C2_noop_delete (s : Store) (id : Nat) (h : ∀ p ∈ s.rows, p.id ≠ id) :
    deletePrompt s id = ⟨200, s, [⟨"prompt_deleted", .deletedId id⟩]⟩ := by
  have hfilter : s.rows.filter (fun p => p.id != id) = s.rows :=
    List.filter_eq_self.mpr (fun p hp => by simpa using h p hp)
  simp [deletePrompt, hfilter]

/-- Witness for C2: a concrete no-op delete on a one-row store. -/
theorem C2_noop_delete_witness :
    deletePrompt ⟨[⟨1, "a", "b", "General", 0, 0⟩], 2⟩ 5 =
      ⟨200, ⟨[⟨1, "a", "b", "General", 0, 0⟩], 2⟩,
        [⟨"prompt_deleted", .deletedId 5⟩]⟩ :=
  C2_noop_delete ⟨[⟨1, "a", "b", "General", 0, 0⟩], 2⟩ 5 (by decide)

/-- Claim C3, counterexample: the snapshot sent to a new connection is
claimed to be `Store.list()` (ordered by `updated_at` descending), but the
connection handler reads `SELECT * FROM prompts` without ORDER BY.  On a
store whose rowid order disagrees with the `updated_at` order the message
differs from the claimed one. -/
theorem C3_snapshot_not_sorted :
    (handleConnection [] 7
        ⟨[⟨1, "a", "b", "General", 0, 5⟩, ⟨2, "c", "d", "General", 0, 9⟩], 3⟩).2 ≠
      [(7, ⟨"initial_data", .records (Store.list
        ⟨[⟨1, "a", "b", "General", 0, 5⟩, ⟨2, "c", "d", "General", 0, 9⟩], 3⟩)⟩)] := by
  decide

/-- Claim C3 as amended: on every new connection the server registers the
socket and sends, to that connection alone and exactly once, a single
`initial_data` event whose data is the unordered table contents — a
permutation of `Store.list()` (all current records), in rowid order rather
than `updated_at` descending. -/
theorem C3_initial_snapshot (clients : List Nat) (wsId : Nat) (s : Store) :
    handleConnection clients wsId s =
      (clients ++ [wsId], [(wsId, ⟨"initial_data", .records (snapshotQuery s)⟩)]) ∧
    (snapshotQuery s).Perm (Store.list s) :=
  ⟨rfl, (sortByUpdatedDesc_perm s.rows).symm⟩

/-- Claim C4: importing a batch of N rows, each with non-empty title and
content, answers 200 with count = N, broadcasts exactly one
`prompts_imported` event with count = N, and grows `list()` by exactly N
rows. -/
theorem C4_valid_import (s : Store) (now : Nat) (rows : List RawRow)
    (hval : ∀ r ∈ rows,
      (∃ t, r.title = some t ∧ t ≠ "") ∧ (∃ c, r.content = some c ∧ c ≠ "")) :
    (importPrompts s now (some rows)).status = 200 ∧
    (importPrompts s now (some rows)).count = some rows.length ∧
    (importPrompts s now (some rows)).events =
      [⟨"prompts_imported", .count rows.length⟩] ∧
    (Store.list (importPrompts s now (some rows)).store).length =
      (Store.list s).length + rows.length := by
  obtain ⟨s', hs', hlen⟩ := insertMany_ok now rows s (fun r hr => by
    obtain ⟨⟨t, ht, _⟩, ⟨c, hc, _⟩⟩ := hval r hr
    exact ⟨by simp [ht], by simp [hc]⟩)
  refine ⟨?_, ?_, ?_, ?_⟩ <;> simp [importPrompts, hs', list_length, hlen]

/-- Witness for C4: a concrete two-row valid batch on a one-row store. -/
theorem C4_valid_import_witness :
    (importPrompts ⟨[⟨1, "a", "b", "General", 0, 0⟩], 2⟩ 9
        (some [⟨some "t1", some "c1", none⟩, ⟨some "t2", some "c2", some "X"⟩])).status
      = 200 ∧
    (importPrompts ⟨[⟨1, "a", "b", "General", 0, 0⟩], 2⟩ 9
        (some [⟨some "t1", some "c1", none⟩, ⟨some "t2", some "c2", some "X"⟩])).count
      = some 2 ∧
    (importPrompts ⟨[⟨1, "a", "b", "General", 0, 0⟩], 2⟩ 9
        (some [⟨some "t1", some "c1", none⟩, ⟨some "t2", some "c2", some "X"⟩])).events
      = [⟨"prompts_imported", .count 2⟩] ∧
    (Store.list (importPrompts ⟨[⟨1, "a", "b", "General", 0, 0⟩], 2⟩ 9
        (some [⟨some "t1", some "c1", none⟩, ⟨some "t2", some "c2", some "X"⟩])).store).length
      = (Store.list ⟨[⟨1, "a", "b", "General", 0, 0⟩], 2⟩).length + 2 :=
  C4_valid_import ⟨[⟨1, "a", "b", "General", 0, 0⟩], 2⟩ 9
    [⟨some "t1", some "c1", none⟩, ⟨some "t2", some "c2", some "X"⟩]
    (by
      intro r hr
      simp only [List.mem_cons, List.not_mem_nil, or_false] at hr
      rcases hr with h | h <;> subst h <;>
        exact ⟨⟨_, rfl, by decide⟩, ⟨_, rfl, by decide⟩⟩)

/-- Claim C5: `POST /api/prompts` with an empty or absent title or content
answers 400 with the store unchanged and nothing broadcast; with non-empty
title and content it answers 201, appends exactly the new record, and
returns its id `s.nextId`, which is fresh (distinct from every stored id)
whenever the AUTOINCREMENT invariant holds. -/
theorem C5_create (s : Store) (now : Nat) (req : CreateReq) :
    ((strFalsy req.title || strFalsy req.content) = true →
      createPrompt s now req = ⟨400, s, [], none⟩) ∧
    ((strFalsy req.title || strFalsy req.content) = false →
      (createPrompt s now req).status = 201 ∧
      (createPrompt s now req).newId = some s.nextId ∧
      (createPrompt s now req).store.rows =
        s.rows ++ [⟨s.nextId, req.title.getD "", req.content.getD "",
                    catOrDefault req.category, now, now⟩] ∧
      (s.wf → s.nextId ∉ s.rows.map Prompt.id)) := by
  constructor
  · intro h; simp [createPrompt, h]
  · intro h
    refine ⟨by simp [createPrompt, h], by simp [createPrompt, h],
      by simp [createPrompt, h], ?_⟩
    intro hwf hmem
    obtain ⟨p, hp, hid⟩ := List.mem_map.mp hmem
    exact absurd hid (Nat.ne_of_lt (hwf p hp))

/-- Witness for C5: a valid and an invalid create on a one-row store. -/
theorem C5_create_witness :
    (createPrompt ⟨[⟨1, "a", "b", "General", 0, 0⟩], 2⟩ 4
        ⟨some "T", some "C", none⟩).status = 201 ∧
    (createPrompt ⟨[⟨1, "a", "b", "General", 0, 0⟩], 2⟩ 4
        ⟨some "T", some "C", none⟩).newId = some 2 ∧
    createPrompt ⟨[⟨1, "a", "b", "General", 0, 0⟩], 2⟩ 4 ⟨none, some "C", none⟩ =
      ⟨400, ⟨[⟨1, "a", "b", "General", 0, 0⟩], 2⟩, [], none⟩ ∧
    (2 : Nat) ∉ [(⟨1, "a", "b", "General", 0, 0⟩ : Prompt)].map Prompt.id :=
  ⟨((C5_create ⟨[⟨1, "a", "b", "General", 0, 0⟩], 2⟩ 4
      ⟨some "T", some "C", none⟩).2 (by decide)).1,
   ((C5_create ⟨[⟨1, "a", "b", "General", 0, 0⟩], 2⟩ 4
      ⟨some "T", some "C", none⟩).2 (by decide)).2.1,
   (C5_create ⟨[⟨1, "a", "b", "General", 0, 0⟩], 2⟩ 4
      ⟨none, some "C", none⟩).1 (by decide),
   ((C5_create ⟨[⟨1, "a", "b", "General", 0, 0⟩], 2⟩ 4
      ⟨some "T", some "C", none⟩).2 (by decide)).2.2.2 (by decide)⟩

/-- Claim C6: `PUT /api/prompts/:id` on an absent id answers 404 with the
store unchanged and no broadcast; on a present id it overwrites title,
content and category unconditionally, the trigger refreshes `updated_at`
to now (so `updated_at > created_at` whenever the update happens strictly
after creation), and exactly one `prompt_updated` event carrying the
updated record is broadcast. -/
theorem C6_update (s : Store) (now id : Nat) (t c cat : String) :
    ((∀ p ∈ s.rows, p.id ≠ id) → updatePrompt s now id t c cat = ⟨404, s, []⟩) ∧
    (∀ old, s.rows.find? (fun p => p.id == id) = some old →
      updatePrompt s now id t c cat =
        ⟨200,
          { s with rows := s.rows.map (fun p => if p.id == id then
              { old with title := t, content := c, category := cat, updated_at := now }
            else p) },
          [⟨"prompt_updated", .record
              { old with title := t, content := c, category := cat,
                         updated_at := now }⟩]⟩ ∧
      (old.created_at < now →
        ({ old with title := t, content := c, category := cat,
                    updated_at := now } : Prompt).created_at <
          ({ old with title := t, content := c, category := cat,
                      updated_at := now } : Prompt).updated_at)) := by
  constructor
  · intro h
    have hf : s.rows.find? (fun p => p.id == id) = none :=
      List.find?_eq_none.mpr (fun p hp => by simpa using h p hp)
    simp [updatePrompt, hf]
  · intro old hold
    exact ⟨by simp [updatePrompt, hold], fun hlt => by simpa using hlt⟩

/-- Witness for C6: a missing id and a present id on a one-row store. -/
theorem C6_update_witness :
    updatePrompt ⟨[⟨1, "T", "C", "General", 0, 0⟩], 2⟩ 5 9 "x" "y" "z" =
      ⟨404, ⟨[⟨1, "T", "C", "General", 0, 0⟩], 2⟩, []⟩ ∧
    updatePrompt ⟨[⟨1, "T", "C", "General", 0, 0⟩], 2⟩ 5 1 "T2" "C2" "X" =
      ⟨200, ⟨[⟨1, "T2", "C2", "X", 0, 5⟩], 2⟩,
        [⟨"prompt_updated", .record ⟨1, "T2", "C2", "X", 0, 5⟩⟩]⟩ ∧
    (⟨1, "T2", "C2", "X", 0, 5⟩ : Prompt).created_at <
      (⟨1, "T2", "C2", "X", 0, 5⟩ : Prompt).updated_at :=
  ⟨(C6_update ⟨[⟨1, "T", "C", "General", 0, 0⟩], 2⟩ 5 9 "x" "y" "z").1 (by decide),
   ((C6_update ⟨[⟨1, "T", "C", "General", 0, 0⟩], 2⟩ 5 1 "T2" "C2" "X").2
      ⟨1, "T", "C", "General", 0, 0⟩ rfl).1,
   ((C6_update ⟨[⟨1, "T", "C", "General", 0, 0⟩], 2⟩ 5 1 "T2" "C2" "X").2
      ⟨1, "T", "C", "General", 0, 0⟩ rfl).2 (by decide)⟩

/-- Auxiliary invariant for C7: from an unterminated state whose `isAlive`
flag equals the pong-since-last-tick flag of the trace, a responsive trace
never terminates the connection. -/
theorem runHB_responsiveFrom :
    ∀ (es : List HBEvent) (b : Bool), responsiveFrom b es = true →
      (runHB ⟨b, false⟩ es).terminated = false := by
  intro es
  induction es with
  | nil => intro b _; rfl
  | cons e es ih =>
    intro b h
    cases e with
    | pong =>
      simp only [responsiveFrom] at h
      simpa [runHB, hbStep] using ih true h
    | beat =>
      simp only [responsiveFrom, Bool.and_eq_true] at h
      obtain ⟨hb, h2⟩ := h
      subst hb
      simpa [runHB, hbStep] using ih false h2

/-- Claim C7: a connection that answers every probe — a pong arrives after
each ping and before the next heartbeat tick — is never evicted: after any
responsive trace from the initial connection state, `ws.terminate()` has
not run (so the socket was neither closed nor removed from the client
set). -/
theorem C7_responsive_never_evicted (es : List HBEvent)
    (h : responsive es = true) :
    (runHB connInit es).terminated = false :=
  runHB_responsiveFrom es true h

/-- Witness for C7: a concrete responsive trace of two heartbeat cycles. -/
theorem C7_responsive_never_evicted_witness :
    responsive [HBEvent.beat, .pong, .beat, .pong] = true ∧
    (runHB connInit [HBEvent.beat, .pong, .beat, .pong]).terminated = false :=
  ⟨by decide, C7_responsive_never_evicted [HBEvent.beat, .pong, .beat, .pong] (by decide)⟩

/-- Claim C8: a connection that never answers any probe survives the first
heartbeat tick it sees but is terminated on the second; when its first
tick falls at time `b1` within one period of its connection time `t0`, the
eviction instant `beatTime b1 P 2 = b1 + P` lies in `[t0 + P, t0 + 2P)`. -/
theorem C8_silent_evicted (t0 b1 P : Nat) (h1 : t0 ≤ b1) (h2 : b1 < t0 + P) :
    (runSilent connInit 1).terminated = false ∧
    (runSilent connInit 2).terminated = true ∧
    beatTime b1 P 2 = b1 + P ∧
    t0 + P ≤ beatTime b1 P 2 ∧ beatTime b1 P 2 < t0 + 2 * P := by
  refine ⟨rfl, rfl, by simp [beatTime], ?_, ?_⟩ <;> simp only [beatTime] <;> omega

/-- Witness for C8: connection at time 0, first tick at 10, period 30. -/
theorem C8_silent_evicted_witness :
    (runSilent connInit 1).terminated = false ∧
    (runSilent connInit 2).terminated = true ∧
    beatTime 10 30 2 = 10 + 30 ∧
    0 + 30 ≤ beatTime 10 30 2 ∧ beatTime 10 30 2 < 0 + 2 * 30 :=
  C8_silent_evicted 0 10 30 (by decide) (by decide)

/-- Claim C9: `broadcast` stringifies the event once; every delivery
carries that one serialized payload, and the recipients are exactly the
clients of the snapshot whose `readyState` is OPEN, the others being
skipped. -/
theorem C9_broadcast (cs : List Client) (e : Event) :
    (∀ d ∈ broadcast cs e, d.2 = serializeEvent e) ∧
    (broadcast cs e).map Prod.fst =
      (cs.filter (fun c => c.readyState == OPEN)).map Client.id ∧
    (broadcast cs e).length = (cs.filter (fun c => c.readyState == OPEN)).length := by
  refine ⟨?_, ?_, ?_⟩
  · intro d hd
    obtain ⟨c, _, hc⟩ := List.mem_map.mp hd
    simp [← hc]
  · simp [broadcast]
  · simp [broadcast]

/-- Witness for C9: one OPEN and one CLOSED client receiving a delete
event. -/
theorem C9_broadcast_witness :
    ((1, serializeEvent ⟨"prompt_deleted", .deletedId 3⟩) : Nat × String).2 =
      serializeEvent ⟨"prompt_deleted", .deletedId 3⟩ ∧
    (broadcast [⟨1, OPEN⟩, ⟨2, 0⟩] ⟨"prompt_deleted", .deletedId 3⟩).map Prod.fst =
      [1] :=
  ⟨(C9_broadcast [⟨1, OPEN⟩, ⟨2, 0⟩] ⟨"prompt_deleted", .deletedId 3⟩).1 _
      (by simp [broadcast, OPEN]),
   by
    rw [(C9_broadcast [⟨1, OPEN⟩, ⟨2, 0⟩] ⟨"prompt_deleted", .deletedId 3⟩).2.1]
    rfl⟩

/-- Claim C10: importing an empty array succeeds with 200, count 0, the
store unchanged, and still broadcasts one `prompts_imported` event with
count 0. -/
theorem C10_empty_import (s : Store) (now : Nat) :
    importPrompts s now (some []) =
      ⟨200, s, [⟨"prompts_imported", .count 0⟩], some 0⟩ :=
  rfl

end Server

